import Mathlib

/-!
Shallow embedding of `src/main.py` (class `DatabricksMCP`): the
statement-execution polling core (`execute_sql_query`) and the metadata/DDL
operations built on top of it.

Remote interaction is modelled by an oracle `Env`: `clock n` is the value
returned by the n-th wall-clock reading (`time.time()`, in whole time-units;
the Python comparison `time.time() - start_time < timeout` on floats agrees
with truncated `Nat` subtraction here because the timeout is positive) and
`poll k` is the response of the k-th status RPC
(`statement_execution.get_statement`).  The `while` loop is embedded
fuel-indexed (`none` = the loop would spin without ever exiting); its body is
translated branch by branch as a step that either continues to the next
iteration (`Sum.inl`) or exits the call (`Sum.inr`).  In the source every
branch of the body is a `return` or a `raise`, so the translated body never
produces `Sum.inl`.
-/

/-- States of `databricks.sdk.service.sql.StatementState`. -/
inductive StatementState where
  | PENDING
  | RUNNING
  | SUCCEEDED
  | FAILED
  | CANCELED
  | CLOSED
deriving DecidableEq

/-- The `status` field of a `get_statement` response (`status.state`). -/
structure StatementStatus where
  state : StatementState
deriving DecidableEq

/-- The `result` field of a `get_statement` response; `data_array` is the
optional list of rows, each a list of string cells (`list[list[str]]`). -/
structure ResultData where
  data_array : Option (List (List String))
deriving DecidableEq

/-- One `get_statement` response: `status.state` plus the optional result
payload (`None` in Python is `none` here). -/
structure StatusResponse where
  status : StatementStatus
  result : Option ResultData
deriving DecidableEq

/-- The exceptions `execute_sql_query` can raise (main.py lines 41, 43, 45,
48), by the names the specification gives them. -/
inductive ExecError where
  | executionFailure
  | executionCanceled
  | unexpectedState (s : StatementState)
  | timeout
deriving DecidableEq

abbrev Rows := List (List String)

/-- Oracle for one `execute_sql_query` call: the wall clock readings and the
status-poll responses of the remote engine, in the order they are consumed. -/
structure Env where
  clock : Nat → Nat
  poll : Nat → StatusResponse

/-- main.py line 26: `timeout = 60  # Maximum wait time in seconds`. -/
def sqlTimeout : Nat := 60

/-- main.py line 27: `interval = 5  # Polling interval in seconds`; the
constant is defined but never read again in the source. -/
def sqlInterval : Nat := 5

/-- main.py lines 37-39: `if status_response.result and
status_response.result.data_array: return [list(row) for row in
status_response.result.data_array]` and otherwise `return []`.  A missing
`result`, a missing `data_array` and an empty `data_array` list are all falsy
in Python and fall through to `return []`. -/
def resultRows (resp : StatusResponse) : Rows :=
  match resp.result with
  | some res =>
    match res.data_array with
    | some arr => if arr.isEmpty then [] else arr.map (fun row => row)
    | none => []
  | none => []

/-- main.py lines 32-45, one iteration of the `while` body after the
`get_statement` call: branch on `status_response.status.state`.  Every branch
returns or raises, i.e. exits the call (`Sum.inr`); no branch falls through to
the next iteration (`Sum.inl` is never produced). -/
def loopBody (resp : StatusResponse) : Sum Unit (Except ExecError Rows) :=
  match resp.status.state with
  | StatementState.SUCCEEDED => Sum.inr (Except.ok (resultRows resp))
  | StatementState.FAILED => Sum.inr (Except.error ExecError.executionFailure)
  | StatementState.CANCELED => Sum.inr (Except.error ExecError.executionCanceled)
  | s => Sum.inr (Except.error (ExecError.unexpectedState s))

/-- The exit value of `loopBody` with the `Sum` wrapper stripped. -/
def stepResult (resp : StatusResponse) : Except ExecError Rows :=
  match resp.status.state with
  | StatementState.SUCCEEDED => Except.ok (resultRows resp)
  | StatementState.FAILED => Except.error ExecError.executionFailure
  | StatementState.CANCELED => Except.error ExecError.executionCanceled
  | s => Except.error (ExecError.unexpectedState s)

instance {ε α : Type} [DecidableEq ε] [DecidableEq α] : DecidableEq (Except ε α)
  | Except.ok a, Except.ok b =>
    if h : a = b then isTrue (by rw [h]) else isFalse (fun hc => by cases hc; exact h rfl)
  | Except.ok _, Except.error _ => isFalse (fun hc => by cases hc)
  | Except.error _, Except.ok _ => isFalse (fun hc => by cases hc)
  | Except.error e, Except.error f =>
    if h : e = f then isTrue (by rw [h]) else isFalse (fun hc => by cases hc; exact h rfl)

/-- Observable outcome of one `execute_sql_query` call: the statement text
passed to `execute_statement`, the number of `get_statement` RPCs issued, and
the returned rows or raised exception. -/
structure ExecTrace where
  submitted : String
  polls : Nat
  outcome : Except ExecError Rows
deriving DecidableEq

/-- main.py lines 31-48: `while time.time() - start_time < timeout:` followed
by the body and, after the loop, `raise Exception("SQL execution timed out")`.
`k` counts the polls already issued; clock reading `k + 1` is the guard check
before poll `k`; the result pairs the total number of polls with the outcome.
`fuel` bounds the number of iterations that can be unfolded (`none` = the
loop would run forever). -/
def pollLoop (env : Env) (start : Nat) : Nat → Nat → Option (Nat × Except ExecError Rows)
  | _, 0 => none
  | k, fuel + 1 =>
    if env.clock (k + 1) - start < sqlTimeout then
      match loopBody (env.poll k) with
      | Sum.inl _ => pollLoop env start (k + 1) fuel
      | Sum.inr r => some (k + 1, r)
    else
      some (k, Except.error ExecError.timeout)

/-- main.py lines 16-48, `DatabricksMCP.execute_sql_query`: submit `sql`
(`execute_statement`), read `start_time = time.time()` (clock reading 0), then
run the polling loop. -/
def execute_sql_query (env : Env) (sql : String) (fuel : Nat) : Option ExecTrace :=
  match pollLoop env (env.clock 0) 0 fuel with
  | none => none
  | some pr => some ⟨sql, pr.1, pr.2⟩

lemma loopBody_eq (resp : StatusResponse) : loopBody resp = Sum.inr (stepResult resp) := by
  obtain ⟨⟨st⟩, r⟩ := resp
  cases st <;> rfl

lemma pollLoop_succ (env : Env) (start k fuel : Nat) :
    pollLoop env start k (fuel + 1) =
      if env.clock (k + 1) - start < sqlTimeout then
        some (k + 1, stepResult (env.poll k))
      else
        some (k, Except.error ExecError.timeout) := by
  rw [pollLoop, loopBody_eq]

lemma execute_in_window (env : Env) (sql : String) (fuel : Nat) (hf : 0 < fuel)
    (hw : env.clock 1 - env.clock 0 < sqlTimeout) :
    execute_sql_query env sql fuel = some ⟨sql, 1, stepResult (env.poll 0)⟩ := by
  cases fuel with
  | zero => exact absurd hf (by decide)
  | succ f =>
    rw [execute_sql_query, pollLoop_succ]
    rw [if_pos (by simpa using hw)]

lemma execute_submitted (env : Env) (sql : String) (fuel : Nat) (tr : ExecTrace)
    (h : execute_sql_query env sql fuel = some tr) : tr.submitted = sql := by
  rw [execute_sql_query] at h
  cases hp : pollLoop env (env.clock 0) 0 fuel with
  | none => rw [hp] at h; cases h
  | some pr => rw [hp] at h; cases h; rfl

lemma execute_polls_le_one (env : Env) (sql : String) (fuel : Nat) (tr : ExecTrace)
    (h : execute_sql_query env sql fuel = some tr) : tr.polls ≤ 1 := by
  rw [execute_sql_query] at h
  cases fuel with
  | zero => cases h
  | succ f =>
    rw [pollLoop_succ] at h
    by_cases hg : env.clock (0 + 1) - env.clock 0 < sqlTimeout
    · rw [if_pos hg] at h
      cases h
      exact Nat.le_refl 1
    · rw [if_neg hg] at h
      cases h
      exact Nat.zero_le 1

lemma stepResult_ne_timeout (resp : StatusResponse) :
    stepResult resp ≠ Except.error ExecError.timeout := by
  obtain ⟨⟨st⟩, r⟩ := resp
  cases st <;> simp [stepResult]

/-- Claim C1: when the first observed statement state is SUCCEEDED, a
populated `data_array` is returned as-is (one row per entry, same order, each
inner collection copied into a row), and a missing result payload, a missing
`data_array` or an empty `data_array` yields the empty row list without an
error. -/
theorem claim_C1 (env : Env) (sql : String) (fuel : Nat) (hf : 0 < fuel)
    (hw : env.clock 1 - env.clock 0 < sqlTimeout)
    (hs : (env.poll 0).status.state = StatementState.SUCCEEDED) :
    (∀ res arr, (env.poll 0).result = some res → res.data_array = some arr → arr ≠ [] →
      execute_sql_query env sql fuel = some ⟨sql, 1, Except.ok arr⟩) ∧
    (((env.poll 0).result = none ∨
        ∃ res, (env.poll 0).result = some res ∧
          (res.data_array = none ∨ res.data_array = some [])) →
      execute_sql_query env sql fuel = some ⟨sql, 1, Except.ok []⟩) := by
  have hrun := execute_in_window env sql fuel hf hw
  have hstep : stepResult (env.poll 0) = Except.ok (resultRows (env.poll 0)) := by
    rw [stepResult, hs]
  constructor
  · intro res arr h1 h2 h3
    have hne : arr.isEmpty = false := by
      cases arr with
      | nil => exact absurd rfl h3
      | cons a as => rfl
    have hrows : resultRows (env.poll 0) = arr := by
      simp [resultRows, h1, h2, hne]
    rw [hrun, hstep, hrows]
  · intro hcase
    have hrows : resultRows (env.poll 0) = [] := by
      rcases hcase with hnone | ⟨res, hres, hda⟩
      · simp [resultRows, hnone]
      · rcases hda with hda | hda
        · simp [resultRows, hres, hda]
        · simp [resultRows, hres, hda]
    rw [hrun, hstep, hrows]

def envC1 : Env :=
  ⟨fun _ => 0,
   fun _ => ⟨⟨StatementState.SUCCEEDED⟩, some ⟨some [["1", "Alice"], ["2", "Bob"]]⟩⟩⟩

theorem claim_C1_witness :
    execute_sql_query envC1 "SELECT 1" 1 =
      some ⟨"SELECT 1", 1, Except.ok [["1", "Alice"], ["2", "Bob"]]⟩ :=
  (claim_C1 envC1 "SELECT 1" 1 (by decide) (by decide) rfl).1
    ⟨some [["1", "Alice"], ["2", "Bob"]]⟩ [["1", "Alice"], ["2", "Bob"]] rfl rfl (by decide)

/-- Claim C2: a first observed state of FAILED raises the ExecutionFailure
error and a first observed state of CANCELED raises the ExecutionCanceled
error; in both cases the outcome is the error alone, never any rows. -/
theorem claim_C2 (env : Env) (sql : String) (fuel : Nat) (hf : 0 < fuel)
    (hw : env.clock 1 - env.clock 0 < sqlTimeout) :
    ((env.poll 0).status.state = StatementState.FAILED →
      execute_sql_query env sql fuel =
        some ⟨sql, 1, Except.error ExecError.executionFailure⟩) ∧
    ((env.poll 0).status.state = StatementState.CANCELED →
      execute_sql_query env sql fuel =
        some ⟨sql, 1, Except.error ExecError.executionCanceled⟩) := by
  have hrun := execute_in_window env sql fuel hf hw
  constructor
  · intro hs
    rw [hrun, stepResult, hs]
  · intro hs
    rw [hrun, stepResult, hs]

def envC2 : Env := ⟨fun _ => 0, fun _ => ⟨⟨StatementState.FAILED⟩, none⟩⟩

theorem claim_C2_witness :
    execute_sql_query envC2 "SELECT 1" 1 =
      some ⟨"SELECT 1", 1, Except.error ExecError.executionFailure⟩ :=
  (claim_C2 envC2 "SELECT 1" 1 (by decide) (by decide)).1 rfl

/-- Claim C3: any first observed state other than SUCCEEDED, FAILED and
CANCELED makes the call fail with the UnexpectedState error carrying that
state, after exactly one status poll (the trace records a single
`get_statement` RPC, so no further poll follows the observation). -/
theorem claim_C3 (env : Env) (sql : String) (fuel : Nat) (hf : 0 < fuel)
    (hw : env.clock 1 - env.clock 0 < sqlTimeout)
    (h1 : (env.poll 0).status.state ≠ StatementState.SUCCEEDED)
    (h2 : (env.poll 0).status.state ≠ StatementState.FAILED)
    (h3 : (env.poll 0).status.state ≠ StatementState.CANCELED) :
    execute_sql_query env sql fuel =
      some ⟨sql, 1, Except.error (ExecError.unexpectedState (env.poll 0).status.state)⟩ := by
  have hrun := execute_in_window env sql fuel hf hw
  have hstep : stepResult (env.poll 0) =
      Except.error (ExecError.unexpectedState (env.poll 0).status.state) := by
    rw [stepResult]
    cases hs : (env.poll 0).status.state with
    | SUCCEEDED => exact absurd hs h1
    | FAILED => exact absurd hs h2
    | CANCELED => exact absurd hs h3
    | PENDING => rfl
    | RUNNING => rfl
    | CLOSED => rfl
  rw [hrun, hstep]

def envC3 : Env := ⟨fun _ => 0, fun _ => ⟨⟨StatementState.RUNNING⟩, none⟩⟩

theorem claim_C3_witness :
    execute_sql_query envC3 "SELECT 1" 1 =
      some ⟨"SELECT 1", 1, Except.error (ExecError.unexpectedState StatementState.RUNNING)⟩ :=
  claim_C3 envC3 "SELECT 1" 1 (by decide) (by decide) (by decide) (by decide) (by decide)

/-- Claim C10: when the first guard check falls inside the timeout window the
loop body runs exactly once (the trace records one status poll) and the
outcome is never the Timeout error; moreover no call whatsoever issues more
than one status-poll RPC. -/
theorem claim_C10 (env : Env) (sql : String) (fuel : Nat) (hf : 0 < fuel)
    (hw : env.clock 1 - env.clock 0 < sqlTimeout) :
    (∃ r, execute_sql_query env sql fuel = some ⟨sql, 1, r⟩ ∧
      r ≠ Except.error ExecError.timeout) ∧
    (∀ (e : Env) (q : String) (n : Nat) (tr : ExecTrace),
      execute_sql_query e q n = some tr → tr.polls ≤ 1) := by
  constructor
  · exact ⟨stepResult (env.poll 0), execute_in_window env sql fuel hf hw,
      stepResult_ne_timeout (env.poll 0)⟩
  · intro e q n tr h
    exact execute_polls_le_one e q n tr h

def envC10 : Env := ⟨fun _ => 0, fun _ => ⟨⟨StatementState.SUCCEEDED⟩, none⟩⟩

theorem claim_C10_witness :
    (∃ r, execute_sql_query envC10 "SELECT 1" 1 = some ⟨"SELECT 1", 1, r⟩ ∧
      r ≠ Except.error ExecError.timeout) ∧
    (∀ (e : Env) (q : String) (n : Nat) (tr : ExecTrace),
      execute_sql_query e q n = some tr → tr.polls ≤ 1) :=
  claim_C10 envC10 "SELECT 1" 1 (by decide) (by decide)

/-- Environment on which the polling loop of claim C4 would have to keep
polling: the remote state stays PENDING on every poll and the clock advances
one unit per reading, so every guard check for twelve 5-unit polling rounds
lies far inside the 60-unit window. -/
def envC4 : Env := ⟨fun n => n, fun _ => ⟨⟨StatementState.PENDING⟩, none⟩⟩

/-- Claim C4, evaluated at the failing input: a statement whose remote status
never reaches a terminal value does not make the call poll every 5 time-units
until the 60-unit timeout and fail with the Timeout error, as the claim says;
the code issues a single status poll and raises the UnexpectedState error
immediately (the `interval` constant of main.py line 27 is never used and no
second `get_statement` call ever happens). -/
theorem claim_C4_bug :
    execute_sql_query envC4 "SELECT 1" 12 =
      some ⟨"SELECT 1", 1, Except.error (ExecError.unexpectedState StatementState.PENDING)⟩ := by
  decide

/-- One record returned by the `catalogs.list` RPC; only its `name` field is
read by the source. -/
structure CatalogInfo where
  name : String
deriving DecidableEq

/-- One record returned by the `schemas.list` RPC. -/
structure SchemaInfo where
  name : String
deriving DecidableEq

/-- One record returned by the `tables.list` RPC. -/
structure TableInfo where
  name : String
deriving DecidableEq

/-- Oracle for the metadata-listing RPCs of the workspace client:
`catalogs.list()`, `schemas.list(catalog_name=...)` and
`tables.list(catalog_name=..., schema_name=...)`. -/
structure MetaEnv where
  catalogsList : List CatalogInfo
  schemasList : String → List SchemaInfo
  tablesList : String → String → List TableInfo

/-- main.py lines 50-53, `DatabricksMCP.list_catalogs`:
`return [c.name for c in catalogs]`. -/
def list_catalogs (menv : MetaEnv) : List String :=
  (menv.catalogsList).map (fun c => c.name)

/-- main.py lines 55-58, `DatabricksMCP.list_schemas`:
`return [s.name for s in schemas]`. -/
def list_schemas (menv : MetaEnv) (catalog : String) : List String :=
  (menv.schemasList catalog).map (fun s => s.name)

/-- main.py lines 60-63, `DatabricksMCP.list_tables`:
`return [t.name for t in tables]`. -/
def list_tables (menv : MetaEnv) (catalog schema : String) : List String :=
  (menv.tablesList catalog schema).map (fun t => t.name)

/-- Claim C9: each of list_catalogs, list_schemas and list_tables returns
exactly the name fields of the records supplied by the remote service, one
per record and in the same order (no filtering or reordering). -/
theorem claim_C9 (menv : MetaEnv) (catalog schema : String) :
    ((list_catalogs menv).length = menv.catalogsList.length ∧
      ∀ i c, menv.catalogsList.get? i = some c →
        (list_catalogs menv).get? i = some c.name) ∧
    ((list_schemas menv catalog).length = (menv.schemasList catalog).length ∧
      ∀ i s, (menv.schemasList catalog).get? i = some s →
        (list_schemas menv catalog).get? i = some s.name) ∧
    ((list_tables menv catalog schema).length = (menv.tablesList catalog schema).length ∧
      ∀ i t, (menv.tablesList catalog schema).get? i = some t →
        (list_tables menv catalog schema).get? i = some t.name) := by
  refine ⟨⟨?_, ?_⟩, ⟨?_, ?_⟩, ⟨?_, ?_⟩⟩
  · simp [list_catalogs]
  · intro i c hc
    rw [List.get?_eq_getElem?] at hc
    simp [list_catalogs, List.get?_eq_getElem?, List.getElem?_map]
    exact ⟨c, hc, rfl⟩
  · simp [list_schemas]
  · intro i s hs
    rw [List.get?_eq_getElem?] at hs
    simp [list_schemas, List.get?_eq_getElem?, List.getElem?_map]
    exact ⟨s, hs, rfl⟩
  · simp [list_tables]
  · intro i t ht
    rw [List.get?_eq_getElem?] at ht
    simp [list_tables, List.get?_eq_getElem?, List.getElem?_map]
    exact ⟨t, ht, rfl⟩


/-- Python `str.upper()` as used on the data-type cell (main.py line 84):
uppercase every character.  (Stated over the character list so that it is
structurally recursive and evaluable; on the ASCII type names produced by
`DESCRIBE TABLE` this is exactly `upper`.) -/
def pyUpper (s : String) : String := ⟨s.data.map Char.toUpper⟩

/-- A Python list comprehension `[f(row) for row in rows]` whose element
expression may raise (here: positional indexing past the end of a row):
`none` models the raised IndexError, `some` the completed list. -/
def projectMap (f : List String → Option String) : Rows → Option (List String)
  | [] => some []
  | row :: rest =>
    match f row with
    | none => none
    | some v => (projectMap f rest).map (fun vs => v :: vs)

lemma projectMap_length (f : List String → Option String) :
    ∀ rows ys, projectMap f rows = some ys → ys.length = rows.length := by
  intro rows
  induction rows with
  | nil =>
    intro ys h
    cases h
    rfl
  | cons row rest ih =>
    intro ys h
    cases hfr : f row with
    | none => simp [projectMap, hfr] at h
    | some v =>
      cases hrest : projectMap f rest with
      | none => simp [projectMap, hfr, hrest] at h
      | some vs =>
        simp [projectMap, hfr, hrest] at h
        subst h
        simp [ih vs hrest]

lemma projectMap_getElem? (f : List String → Option String) :
    ∀ rows ys, projectMap f rows = some ys →
      ∀ (i : Nat) (row : List String), rows[i]? = some row → ys[i]? = f row := by
  intro rows
  induction rows with
  | nil =>
    intro ys h i row hr
    simp at hr
  | cons row0 rest ih =>
    intro ys h i row hr
    cases hfr : f row0 with
    | none => simp [projectMap, hfr] at h
    | some v =>
      cases hrest : projectMap f rest with
      | none => simp [projectMap, hfr, hrest] at h
      | some vs =>
        simp [projectMap, hfr, hrest] at h
        subst h
        cases i with
        | zero =>
          simp at hr
          subst hr
          simp [hfr]
        | succ n =>
          simp at hr
          simpa using ih vs hrest n row hr

lemma projectMap_total (f : List String → Option String) :
    ∀ rows, (∀ row, row ∈ rows → (f row).isSome) →
      ∃ ys, projectMap f rows = some ys := by
  intro rows
  induction rows with
  | nil => intro _; exact ⟨[], rfl⟩
  | cons row rest ih =>
    intro hall
    obtain ⟨v, hv⟩ := Option.isSome_iff_exists.mp (hall row (by simp))
    obtain ⟨vs, hvs⟩ := ih (fun r hr => hall r (by simp [hr]))
    exact ⟨v :: vs, by simp [projectMap, hv, hvs]⟩

lemma getElem?_isSome_of_lt (l : List String) (i : Nat) (h : i < l.length) :
    l[i]?.isSome := by
  cases hg : l[i]? with
  | none =>
    rw [List.getElem?_eq_none_iff] at hg
    omega
  | some _ => rfl

/-- Error surface of `describe_table`: an exception propagated out of
`execute_sql_query`, or an IndexError raised by `row[0]` / `row[1]` on a
result row that is too short. -/
inductive DescribeError where
  | exec (e : ExecError)
  | indexOut
deriving DecidableEq

/-- The dictionary `{"columns": ..., "data_types": ...}` returned by
`describe_table` (main.py line 86). -/
structure TableDescription where
  columns : List String
  data_types : List String
deriving DecidableEq

/-- main.py lines 65-86, `DatabricksMCP.describe_table`: build
`table_full_name = f"{catalog}.{schema}.{table}"`, issue
`DESCRIBE TABLE {table_full_name}` through `execute_sql_query`, then project
`row[0]` as the column name and `row[1].upper()` as the data type of every
result row. -/
def describe_table (env : Env) (fuel : Nat) (catalog schema table : String) :
    Option (Except DescribeError TableDescription) :=
  let table_full_name := catalog ++ "." ++ schema ++ "." ++ table
  let sql := "DESCRIBE TABLE " ++ table_full_name
  match execute_sql_query env sql fuel with
  | none => none
  | some tr =>
    match tr.outcome with
    | Except.error e => some (Except.error (DescribeError.exec e))
    | Except.ok result =>
      match projectMap (fun row => row[0]?) result,
            projectMap (fun row => (row[1]?).map pyUpper) result with
      | some columns, some data_types =>
        some (Except.ok ⟨columns, data_types⟩)
      | _, _ => some (Except.error DescribeError.indexOut)

/-- Claim C5: describe_table submits exactly `DESCRIBE TABLE
catalog.schema.table` through execute_sql_query, and from the returned rows
builds `columns` as element 0 of each row and `data_types` as the uppercased
element 1 of each row, in row order. -/
theorem claim_C5 (env : Env) (fuel : Nat) (catalog schema table : String)
    (tr : ExecTrace) (rows : Rows)
    (hex : execute_sql_query env
      ("DESCRIBE TABLE " ++ (catalog ++ "." ++ schema ++ "." ++ table)) fuel = some tr)
    (hok : tr.outcome = Except.ok rows)
    (hlen : ∀ row ∈ rows, 2 ≤ row.length) :
    tr.submitted = "DESCRIBE TABLE " ++ (catalog ++ "." ++ schema ++ "." ++ table) ∧
    ∃ d, describe_table env fuel catalog schema table = some (Except.ok d) ∧
      d.columns.length = rows.length ∧
      d.data_types.length = rows.length ∧
      ∀ (i : Nat) (row : List String), rows[i]? = some row →
        d.columns[i]? = row[0]? ∧
        d.data_types[i]? = (row[1]?).map pyUpper := by
  refine ⟨execute_submitted env _ fuel tr hex, ?_⟩
  obtain ⟨cols, hcols⟩ :=
    projectMap_total (fun row => row[0]?) rows
      (fun row hrow => getElem?_isSome_of_lt row 0 (by have := hlen row hrow; omega))
  obtain ⟨tys, htys⟩ :=
    projectMap_total (fun row => (row[1]?).map pyUpper) rows
      (fun row hrow => by
        have h1 : (row[1]?).isSome :=
          getElem?_isSome_of_lt row 1 (by have := hlen row hrow; omega)
        obtain ⟨v, hv⟩ := Option.isSome_iff_exists.mp h1
        simp [hv])
  refine ⟨⟨cols, tys⟩, ?_, ?_, ?_, ?_⟩
  · simp only [describe_table, hex, hok, hcols, htys]
  · exact projectMap_length _ rows cols hcols
  · exact projectMap_length _ rows tys htys
  · intro i row hri
    exact ⟨projectMap_getElem? _ rows cols hcols i row hri,
      projectMap_getElem? _ rows tys htys i row hri⟩

def envC5 : Env :=
  ⟨fun _ => 0,
   fun _ => ⟨⟨StatementState.SUCCEEDED⟩, some ⟨some [["id", "int"], ["name", "string"]]⟩⟩⟩

theorem claim_C5_witness :
    (⟨"DESCRIBE TABLE main.sch.tbl", 1,
        Except.ok [["id", "int"], ["name", "string"]]⟩ : ExecTrace).submitted =
      "DESCRIBE TABLE " ++ ("main" ++ "." ++ "sch" ++ "." ++ "tbl") ∧
    ∃ d, describe_table envC5 1 "main" "sch" "tbl" = some (Except.ok d) ∧
      d.columns.length = ([["id", "int"], ["name", "string"]] : Rows).length ∧
      d.data_types.length = ([["id", "int"], ["name", "string"]] : Rows).length ∧
      ∀ (i : Nat) (row : List String),
        ([["id", "int"], ["name", "string"]] : Rows)[i]? = some row →
        d.columns[i]? = row[0]? ∧
        d.data_types[i]? = (row[1]?).map pyUpper :=
  claim_C5 envC5 1 "main" "sch" "tbl"
    ⟨"DESCRIBE TABLE main.sch.tbl", 1, Except.ok [["id", "int"], ["name", "string"]]⟩
    [["id", "int"], ["name", "string"]] (by decide) rfl (by decide)

/-- Claim C6: whatever describe_table returns, the `columns` and `data_types`
sequences have the same length and are positionally aligned: entry i of both
comes from the same result row, `columns` from its element 0 and `data_types`
from its uppercased element 1. -/
theorem claim_C6 (env : Env) (fuel : Nat) (catalog schema table : String)
    (d : TableDescription)
    (h : describe_table env fuel catalog schema table = some (Except.ok d)) :
    d.columns.length = d.data_types.length ∧
    ∃ rows : Rows, d.columns.length = rows.length ∧
      ∀ (i : Nat) (row : List String), rows[i]? = some row →
        d.columns[i]? = row[0]? ∧
        d.data_types[i]? = (row[1]?).map pyUpper := by
  cases hE : execute_sql_query env
      ("DESCRIBE TABLE " ++ (catalog ++ "." ++ schema ++ "." ++ table)) fuel with
  | none => simp [describe_table, hE] at h
  | some tr =>
    cases hO : tr.outcome with
    | error e => simp [describe_table, hE, hO] at h
    | ok rows =>
      cases hcols : projectMap (fun row => row[0]?) rows with
      | none => simp [describe_table, hE, hO, hcols] at h
      | some cols =>
        cases htys : projectMap (fun row => (row[1]?).map pyUpper) rows with
        | none => simp [describe_table, hE, hO, hcols, htys] at h
        | some tys =>
          simp [describe_table, hE, hO, hcols, htys] at h
          have h1 := projectMap_length _ rows cols hcols
          have h2 := projectMap_length _ rows tys htys
          subst h
          refine ⟨by simp [h1, h2], rows, by simpa using h1, ?_⟩
          intro i row hri
          exact ⟨projectMap_getElem? _ rows cols hcols i row hri,
            projectMap_getElem? _ rows tys htys i row hri⟩

def envC6 : Env :=
  ⟨fun _ => 0,
   fun _ => ⟨⟨StatementState.SUCCEEDED⟩, some ⟨some [["id", "int"], ["name", "string"]]⟩⟩⟩

theorem claim_C6_witness :
    (⟨["id", "name"], ["INT", "STRING"]⟩ : TableDescription).columns.length =
      (⟨["id", "name"], ["INT", "STRING"]⟩ : TableDescription).data_types.length ∧
    ∃ rows : Rows,
      (⟨["id", "name"], ["INT", "STRING"]⟩ : TableDescription).columns.length = rows.length ∧
      ∀ (i : Nat) (row : List String), rows[i]? = some row →
        (⟨["id", "name"], ["INT", "STRING"]⟩ : TableDescription).columns[i]? = row[0]? ∧
        (⟨["id", "name"], ["INT", "STRING"]⟩ : TableDescription).data_types[i]? =
          (row[1]?).map pyUpper :=
  claim_C6 envC6 1 "cat" "sch" "tbl" ⟨["id", "name"], ["INT", "STRING"]⟩ (by decide)

/-- Rendering of a nonempty tail in a comma-space join: each further element
is preceded by ", ". -/
def commaTail : List String → String
  | [] => ""
  | x :: xs => ", " ++ x ++ commaTail xs

/-- The specification's "joined by comma-space" rendering of a list of
fragments, written independently of `String.intercalate`. -/
def commaSpaceJoin : List String → String
  | [] => ""
  | [x] => x
  | x :: y :: xs => x ++ ", " ++ commaSpaceJoin (y :: xs)

lemma intercalate_go_eq :
    ∀ (xs : List String) (acc : String),
      String.intercalate.go acc ", " xs = acc ++ commaTail xs := by
  intro xs
  induction xs with
  | nil =>
    intro acc
    simp [String.intercalate.go, commaTail]
  | cons a as ih =>
    intro acc
    simp only [String.intercalate.go, commaTail]
    rw [ih]
    simp [String.append_assoc]

lemma commaSpaceJoin_eq_tail :
    ∀ (xs : List String) (x : String), commaSpaceJoin (x :: xs) = x ++ commaTail xs := by
  intro xs
  induction xs with
  | nil =>
    intro x
    simp [commaSpaceJoin, commaTail]
  | cons y ys ih =>
    intro x
    rw [commaSpaceJoin, ih y, commaTail]
    simp [String.append_assoc]

/-- Python's `", ".join(fragments)` (modelled by `String.intercalate ", "`)
produces exactly the comma-space join the specification describes. -/
lemma intercalate_commaSpace (l : List String) :
    String.intercalate ", " l = commaSpaceJoin l := by
  cases l with
  | nil => rfl
  | cons a as =>
    show String.intercalate.go a ", " as = commaSpaceJoin (a :: as)
    rw [intercalate_go_eq as a, commaSpaceJoin_eq_tail as a]

/-- One column definition supplied to `create_table`: the dict
`{"name": ..., "type": ...}` of which the source reads `col["name"]` and
`col["type"]`. -/
structure ColumnDef where
  name : String
  «type» : String
deriving DecidableEq

/-- main.py lines 94-96, the SQL text built by `DatabricksMCP.create_table`:
`f"CREATE TABLE {table_full_name} ({', '.join(column_defs)})"` with
`column_defs = [f"{col['name']} {col['type']}" for col in columns]`. -/
def create_table_sql (catalog schema table : String) (columns : List ColumnDef) : String :=
  let table_full_name := catalog ++ "." ++ schema ++ "." ++ table
  let column_defs := columns.map (fun col => col.name ++ " " ++ col.«type»)
  "CREATE TABLE " ++ table_full_name ++ " (" ++ String.intercalate ", " column_defs ++ ")"

/-- main.py lines 92-97, `DatabricksMCP.create_table`: build the DDL text and
route it through `execute_sql_query` (the Python method returns `None`, so a
successful outcome carries `Unit`). -/
def create_table (env : Env) (fuel : Nat) (catalog schema table : String)
    (columns : List ColumnDef) : Option (Except ExecError Unit) :=
  match execute_sql_query env (create_table_sql catalog schema table columns) fuel with
  | none => none
  | some tr => some (tr.outcome.map (fun _ => ()))

/-- Claim C7: create_table builds exactly
`CREATE TABLE catalog.schema.table (n1 t1, ..., nk tk)` — each column
definition rendered as name, one space, type, joined by comma-space, with no
identifier escaping or type validation — and routes it through
execute_sql_query. -/
theorem claim_C7 (catalog schema table : String) (columns : List ColumnDef)
    (_h : columns ≠ []) :
    create_table_sql catalog schema table columns =
      "CREATE TABLE " ++ (catalog ++ "." ++ schema ++ "." ++ table) ++ " (" ++
        commaSpaceJoin (columns.map (fun col => col.name ++ " " ++ col.«type»)) ++ ")" ∧
    ∀ (env : Env) (fuel : Nat),
      create_table env fuel catalog schema table columns =
        Option.map (fun tr => tr.outcome.map (fun _ => ()))
          (execute_sql_query env (create_table_sql catalog schema table columns) fuel) := by
  constructor
  · simp only [create_table_sql, intercalate_commaSpace]
  · intro env fuel
    cases hE : execute_sql_query env (create_table_sql catalog schema table columns) fuel with
    | none => simp [create_table, hE]
    | some tr => simp [create_table, hE]

theorem claim_C7_witness :
    create_table_sql "main" "sch" "tbl" [⟨"id", "INT"⟩, ⟨"name", "STRING"⟩] =
      "CREATE TABLE " ++ ("main" ++ "." ++ "sch" ++ "." ++ "tbl") ++ " (" ++
        commaSpaceJoin (([⟨"id", "INT"⟩, ⟨"name", "STRING"⟩] : List ColumnDef).map
          (fun col => col.name ++ " " ++ col.«type»)) ++ ")" ∧
    ∀ (env : Env) (fuel : Nat),
      create_table env fuel "main" "sch" "tbl" [⟨"id", "INT"⟩, ⟨"name", "STRING"⟩] =
        Option.map (fun tr => tr.outcome.map (fun _ => ()))
          (execute_sql_query env
            (create_table_sql "main" "sch" "tbl" [⟨"id", "INT"⟩, ⟨"name", "STRING"⟩]) fuel) :=
  claim_C7 "main" "sch" "tbl" [⟨"id", "INT"⟩, ⟨"name", "STRING"⟩] (by decide)

/-- A Python scalar handed to `insert_data`: either a `str`, or any non-`str`
value represented by its `str(...)` rendering (the only thing the source reads
of it). -/
inductive PyScalar where
  | pystr (s : String)
  | pyother (stringified : String)
deriving DecidableEq

/-- main.py lines 101-105, the local `format_value`: strings are wrapped in
single quotes with no escaping of the content; every other value is
stringified verbatim. -/
def format_value : PyScalar → String
  | PyScalar.pystr s => "\x27" ++ s ++ "\x27"
  | PyScalar.pyother r => r

/-- main.py lines 107-108, the SQL text built by `DatabricksMCP.insert_data`:
`values_str = ", ".join([f"({', '.join(map(format_value, row))})" for row in
values])` and `sql = f"INSERT INTO {table_full_name} VALUES {values_str}"`. -/
def insert_data_sql (table_full_name : String) (values : List (List PyScalar)) : String :=
  let values_str := String.intercalate ", "
    (values.map (fun row => "(" ++ String.intercalate ", " (row.map format_value) ++ ")"))
  "INSERT INTO " ++ table_full_name ++ " VALUES " ++ values_str

/-- main.py lines 99-109, `DatabricksMCP.insert_data`: build the INSERT text
and route it through `execute_sql_query`. -/
def insert_data (env : Env) (fuel : Nat) (table_full_name : String)
    (values : List (List PyScalar)) : Option (Except ExecError Unit) :=
  match execute_sql_query env (insert_data_sql table_full_name values) fuel with
  | none => none
  | some tr => some (tr.outcome.map (fun _ => ()))

/-- Claim C8: insert_data builds exactly
`INSERT INTO <fqname> VALUES (v11, v12, ...), (v21, ...), ...`, where string
values are wrapped in single quotes with no escaping of embedded quote
characters, non-string values are stringified verbatim, values within a row
and row groups are joined by comma-space, and the built statement is routed
through execute_sql_query. -/
theorem claim_C8 (table_full_name : String) (values : List (List PyScalar))
    (_h : values ≠ []) :
    insert_data_sql table_full_name values =
      "INSERT INTO " ++ table_full_name ++ " VALUES " ++
        commaSpaceJoin (values.map
          (fun row => "(" ++ commaSpaceJoin (row.map format_value) ++ ")")) ∧
    (∀ s, format_value (PyScalar.pystr s) = "\x27" ++ s ++ "\x27") ∧
    (∀ r, format_value (PyScalar.pyother r) = r) ∧
    ∀ (env : Env) (fuel : Nat),
      insert_data env fuel table_full_name values =
        Option.map (fun tr => tr.outcome.map (fun _ => ()))
          (execute_sql_query env (insert_data_sql table_full_name values) fuel) := by
  refine ⟨?_, fun s => rfl, fun r => rfl, ?_⟩
  · simp only [insert_data_sql, intercalate_commaSpace]
  · intro env fuel
    cases hE : execute_sql_query env (insert_data_sql table_full_name values) fuel with
    | none => simp [insert_data, hE]
    | some tr => simp [insert_data, hE]

theorem claim_C8_witness :
    insert_data_sql "main.sch.tbl"
        [[PyScalar.pyother "1", PyScalar.pystr "Alice"],
         [PyScalar.pyother "2", PyScalar.pystr "Bob"]] =
      "INSERT INTO " ++ "main.sch.tbl" ++ " VALUES " ++
        commaSpaceJoin (([[PyScalar.pyother "1", PyScalar.pystr "Alice"],
            [PyScalar.pyother "2", PyScalar.pystr "Bob"]] : List (List PyScalar)).map
          (fun row => "(" ++ commaSpaceJoin (row.map format_value) ++ ")")) ∧
    (∀ s, format_value (PyScalar.pystr s) = "\x27" ++ s ++ "\x27") ∧
    (∀ r, format_value (PyScalar.pyother r) = r) ∧
    ∀ (env : Env) (fuel : Nat),
      insert_data env fuel "main.sch.tbl"
          [[PyScalar.pyother "1", PyScalar.pystr "Alice"],
           [PyScalar.pyother "2", PyScalar.pystr "Bob"]] =
        Option.map (fun tr => tr.outcome.map (fun _ => ()))
          (execute_sql_query env
            (insert_data_sql "main.sch.tbl"
              [[PyScalar.pyother "1", PyScalar.pystr "Alice"],
               [PyScalar.pyother "2", PyScalar.pystr "Bob"]]) fuel) :=
  claim_C8 "main.sch.tbl"
    [[PyScalar.pyother "1", PyScalar.pystr "Alice"],
     [PyScalar.pyother "2", PyScalar.pystr "Bob"]] (by decide)
